import Mathlib

/-! Verification of the ECS-OTel-Lab instrumentation harness.

Shallow embedding of the two services in this repository:

* `src/app/main.py`  — the Pokemon "pinger": a supervisor loop that, each
  iteration, opens a span, draws a random id, issues an HTTP GET, classifies
  the outcome (success / HTTP error / exception) into span status and
  counters, and always sleeps the configured interval.
* `src/app2/main.py` — the Pokemon "catcher": a Flask handler `catch` that
  performs a Bernoulli trial, records span attributes and counters, and
  returns a JSON body; plus a heartbeat thread.

Pure computations are Lean functions; effects (span attributes, span status,
counter increments, sleeps) are recorded explicitly in effect records.
External randomness and the network are inputs to the embedded functions.
-/

namespace ECSOTel

/-! ## Resource attribute resolution (both services, lines 36-50)

Python dictionaries keyed by strings are embedded as insertion-ordered
association lists: `dictSet` replaces an existing key in place or appends a
new one, matching `dict.__setitem__`; `dictGet` is `dict.get`. -/

abbrev AttrMap := List (String × String)

/-- Python dict update `m[k] = v`: replace in place if `k` is present,
otherwise append. -/
def dictSet : AttrMap → String → String → AttrMap
  | [], k, v => [(k, v)]
  | (a, b) :: m, k, v =>
      if a = k then (a, v) :: m else (a, b) :: dictSet m k v

/-- Python dict lookup `m.get(k)`. -/
def dictGet : AttrMap → String → Option String
  | [], _ => none
  | (a, b) :: m, k => if a = k then some b else dictGet m k

/-- Split a character list at the first occurrence of `c`; `none` when `c`
does not occur.  This is Python's `str.split(c, 1)` succeeding vs. returning
a single element. -/
def splitFirstChar (c : Char) : List Char → Option (List Char × List Char)
  | [] => none
  | x :: xs =>
      if x = c then some ([], xs)
      else (splitFirstChar c xs).map (fun p => (x :: p.1, p.2))

/-- Helper for `splitAllChar`: the accumulator holds the current piece,
reversed. -/
def splitAllCharAux (c : Char) : List Char → List Char → List (List Char)
  | [], acc => [acc.reverse]
  | x :: xs, acc =>
      if x = c then acc.reverse :: splitAllCharAux c xs []
      else splitAllCharAux c xs (x :: acc)

/-- Python's `str.split(c)` for a single-character separator: splits at every
occurrence, so the empty string yields `[""]` and adjacent separators yield
empty pieces. -/
def splitAllChar (c : Char) (l : List Char) : List (List Char) :=
  splitAllCharAux c l []

/-- Line 43's `resource_env_vars.split(',')`, at the `String` interface. -/
def pySplitComma (s : String) : List String :=
  (splitAllChar ',' s.toList).map String.mk

/-- Python's `str.strip()`: drop whitespace from both ends. -/
def pyStrip (s : String) : String :=
  String.mk
    (((s.toList.dropWhile Char.isWhitespace).reverse.dropWhile
        Char.isWhitespace).reverse)

/-- Line 44's `pair.split('=', 1)` followed by the 2-tuple destructuring
of `key, value = ...`: splits on the first `=` only; `none` models the
`ValueError` raised when the pair contains no `=`. -/
def splitFirstEq (s : String) : Option (String × String) :=
  (splitFirstChar '=' s.toList).map (fun p => (String.mk p.1, String.mk p.2))

/-- A pair is well formed when it contains an `=`, i.e. when line 44's
destructuring succeeds. -/
def wellFormed (p : String) : Bool :=
  (splitFirstEq p).isSome

/-- The `for pair in resource_env_vars.split(',')` loop (lines 43-45),
together with the surrounding `try`/`except` (lines 42-48): each well-formed
pair is split on its first `=`, both halves are stripped and written into the
dict; the first malformed pair raises `ValueError`, which is caught *outside*
the loop, so processing stops there.  The boolean is `true` exactly when the
`except` branch ran (a warning was logged). -/
def applyOverridePairs : List String → AttrMap → AttrMap × Bool
  | [], m => (m, false)
  | p :: ps, m =>
      match splitFirstEq p with
      | some kv => applyOverridePairs ps (dictSet m (pyStrip kv.1) (pyStrip kv.2))
      | none => (m, true)

/-- Lines 36-50: the defaults dict (built from `SERVICE_NAME` and
`DEPLOYMENT_ENVIRONMENT`, here a parameter) overlaid with the parse of
`OTEL_RESOURCE_ATTRIBUTES`; the Python truthiness guard
`if resource_env_vars:` skips parsing of the empty string. -/
def resolveResourceAttributes (defaults : AttrMap) (resource_env_vars : String) :
    AttrMap :=
  if resource_env_vars = "" then defaults
  else (applyOverridePairs (pySplitComma resource_env_vars) defaults).1

/-- One loop-body step of lines 44-45, for restating what the parse does on a
prefix of the pair list: apply a well-formed pair to the dict, leave the dict
unchanged on a malformed one. -/
def overrideStep (m : AttrMap) (p : String) : AttrMap :=
  match splitFirstEq p with
  | some kv => dictSet m (pyStrip kv.1) (pyStrip kv.2)
  | none => m

/-- Modelled from the spec: the contract of §4.1 — look a key up in the merge
of the defaults with the parsed overrides, where each pair is split on its
first `=`, key and value are trimmed, an override wins over a default, and a
later pair overwrites an earlier one for the same key.  Later pairs are
consulted first. -/
def specOverrideLookup : List String → String → Option String
  | [], _ => none
  | p :: ps, k =>
      match specOverrideLookup ps k with
      | some v => some v
      | none =>
          match splitFirstEq p with
          | some kv => if pyStrip kv.1 = k then some (pyStrip kv.2) else none
          | none => none

/-- Modelled from the spec: merged lookup — the override value when some pair
sets the key, the defaults value otherwise. -/
def specMergeLookup (defaults : AttrMap) (pairs : List String) (k : String) :
    Option String :=
  match specOverrideLookup pairs k with
  | some v => some v
  | none => dictGet defaults k

/-! ## The poller Work Unit (`src/app/main.py`, lines 99-152)

One iteration of the `while True` loop is embedded as a function of the
external inputs it consumes: the random draw (a seed) and the behaviour of
the network call (return a status and a body, or raise).  Its observable
effects — span attributes, span status, recorded exceptions, counter
increments, the requested URL, the sleep — are collected in a record. -/

/-- A value set as a span attribute: the code sets ints (`pokemon.id.attempted`,
`http.status_code`), strings (`pokemon.name`, `error.message`) and booleans
(`pokemon.caught_result`). -/
inductive AttrVal where
  | int (n : Int)
  | str (s : String)
  | bool (b : Bool)
deriving DecidableEq, Repr

/-- Span status: `Status(StatusCode.OK)` or `Status(StatusCode.ERROR, description)`. -/
inductive SpanStatus where
  | ok
  | error (description : String)
deriving DecidableEq, Repr

/-- A Python exception, reduced to what the code consumes of it:
`type(e).__name__` and `str(e)`. -/
structure PyExn where
  ty : String
  msg : String
deriving DecidableEq, Repr

/-- Label attributes passed to a counter's `add(1, ...)`. -/
abbrev Labels := List (String × String)

/-- What `response.json()` followed by `data.get("name", "unknown")` can do:
parse to a dict whose `name` field is present or absent, or raise (malformed
body, non-dict JSON, ...). -/
inductive JsonResult where
  | parsed (nameField : Option String)
  | raise (e : PyExn)
deriving DecidableEq, Repr

/-- What `session.get(url, timeout=5)` can do: return a response with some
status code and body, or raise (connection error, timeout, ...). -/
inductive NetCall where
  | raise (e : PyExn)
  | ret (status : Nat) (body : JsonResult)
deriving DecidableEq, Repr

/-- The observable effects of one poller loop iteration. -/
structure IterEffects where
  /-- the `loop_span.set_attribute` calls, in order. -/
  spanAttrs : List (String × AttrVal)
  /-- the last `loop_span.set_status` call, if any. -/
  spanStatus : Option SpanStatus
  /-- the `loop_span.record_exception` calls. -/
  recordedExns : List PyExn
  /-- whether the `with` block has closed the span. -/
  spanClosed : Bool
  /-- the URL passed to `session.get`. -/
  url : String
  /-- label sets of `pokemon_fetch_counter.add(1, ...)` calls. -/
  attempts : List Labels
  /-- label sets of `pokemon_fetch_success_counter.add(1, ...)` calls. -/
  successes : List Labels
  /-- label sets of `pokemon_fetch_error_counter.add(1, ...)` calls. -/
  errors : List Labels
  /-- the argument of `time.sleep`, once the `finally` block has run. -/
  sleptSec : Option Nat
deriving DecidableEq, Repr

/-- Line 101: `pokemon_id = 0`, the sentinel the variable holds before an id
is selected. -/
def pokemonIdInit : Nat := 0

/-- Models `random.randint(a, b)` (line 103): a draw determined by an
arbitrary seed, always an integer in `[a, b]`. -/
def randint (a b seed : Nat) : Nat :=
  a + seed % (b - a + 1)

/-- Line 111: `url = f"https://pokeapi.co/api/v2/pokemon/{pokemon_id}"`. -/
def pokeUrl (pid : Nat) : String :=
  "https://pokeapi.co/api/v2/pokemon/" ++ toString pid

/-- Line 144's label set: `{"pokemon.id": str(pokemon_id),
"exception.type": type(e).__name__}`. -/
def exceptLabels (pid : Nat) (e : PyExn) : Labels :=
  [("pokemon.id", toString pid), ("exception.type", e.ty)]

/-- Lines 102-139, the `try` block body, for an already selected id: attach
the id, count the attempt, issue the network call, and on a response branch
on the status code.  The second component is the exception the block raises,
if any (from `session.get` or from `response.json()`); effects performed
before the raise are kept. -/
def tryBlock (pid : Nat) (net : NetCall) : IterEffects × Option PyExn :=
  let eff0 : IterEffects :=
    { spanAttrs := [("pokemon.id.attempted", AttrVal.int pid)]
      spanStatus := none
      recordedExns := []
      spanClosed := false
      url := pokeUrl pid
      attempts := [[("pokemon.id", toString pid)]]
      successes := []
      errors := []
      sleptSec := none }
  match net with
  | NetCall.raise e => (eff0, some e)
  | NetCall.ret status body =>
      let eff1 :=
        { eff0 with
            spanAttrs := eff0.spanAttrs ++ [("http.status_code", AttrVal.int status)] }
      if status = 200 then
        match body with
        | JsonResult.raise e => (eff1, some e)
        | JsonResult.parsed nameField =>
            let name := nameField.getD "unknown"
            ({ eff1 with
                spanAttrs := eff1.spanAttrs ++ [("pokemon.name", AttrVal.str name)]
                spanStatus := some SpanStatus.ok
                successes :=
                  [[("pokemon.id", toString pid), ("pokemon.name", name)]] },
             none)
      else
        ({ eff1 with
            spanAttrs :=
              eff1.spanAttrs ++
                [("error.message", AttrVal.str ("HTTP " ++ toString status))]
            spanStatus :=
              some (SpanStatus.error
                ("PokeAPI request failed with status " ++ toString status))
            errors :=
              [[("pokemon.id", toString pid),
                ("http.status_code", toString status)]] },
         none)

/-- Lines 140-149, the `except Exception as e` branch: record the exception
on the span, mark the span ERROR with the exception message, and count an
error labelled with the id and the exception type. -/
def exceptBranch (pid : Nat) (e : PyExn) (eff : IterEffects) : IterEffects :=
  { eff with
      recordedExns := eff.recordedExns ++ [e]
      spanStatus := some (SpanStatus.error ("Exception: " ++ e.msg))
      errors := eff.errors ++ [exceptLabels pid e] }

/-- Python's `try ... except Exception as e: handler(e)`: a raised exception is
consumed by the handler; since the handler body itself does not raise,
nothing propagates past the statement. -/
def tryExcept (body : IterEffects × Option PyExn)
    (handler : PyExn → IterEffects → IterEffects) : IterEffects × Option PyExn :=
  match body with
  | (eff, none) => (eff, none)
  | (eff, some e) => (handler e eff, none)

/-- Lines 99-152: one full iteration of the supervisor loop — the `with`
span around `try`/`except`/`finally: time.sleep(INTERVAL_SEC)`.  The second
component is the exception that would propagate out of the iteration into
the `while True` loop, if any. -/
def loopIter (interval seed : Nat) (net : NetCall) : IterEffects × Option PyExn :=
  let pid := randint 1 300 seed
  let r := tryExcept (tryBlock pid net) (exceptBranch pid)
  ({ r.1 with sleptSec := some interval, spanClosed := true }, r.2)

/-! ## The catch handler (`src/app2/main.py`, lines 100-120)

`catch` is a Lean keyword, so the route function `catch(pkmn_id)` is embedded
as `catchHandler`.  Flask's `<int:pkmn_id>` converter yields a non-negative
integer; the Bernoulli draw `random.random() < 0.5` is an input. -/

/-- The observable effects of one `GET /catch/<int:pkmn_id>` request. -/
structure CatchEffects where
  /-- HTTP status of the response (`jsonify` of a dict returns 200). -/
  status : Nat
  /-- the `"pokemon_id"` field of the JSON response body. -/
  bodyPokemonId : Nat
  /-- the `"caught"` field of the JSON response body. -/
  bodyCaught : Bool
  /-- the `current_span.set_attribute` calls, in order. -/
  spanAttrs : List (String × AttrVal)
  /-- label sets of `pokemon_catch_attempt_counter.add(1, ...)` calls. -/
  attempts : List Labels
  /-- label sets of `pokemon_catch_success_counter.add(1, ...)` calls. -/
  successes : List Labels
  /-- label sets of `pokemon_catch_failure_counter.add(1, ...)` calls. -/
  failures : List Labels
deriving DecidableEq, Repr

/-- Lines 100-120: the `catch` route handler.  `draw` is the outcome of
`random.random() < 0.5`. -/
def catchHandler (pkmn_id : Nat) (draw : Bool) : CatchEffects :=
  let caught := draw
  { status := 200
    bodyPokemonId := pkmn_id
    bodyCaught := caught
    spanAttrs :=
      [("pokemon.id.caught", AttrVal.int pkmn_id),
       ("pokemon.caught_result", AttrVal.bool caught)]
    attempts := [[("pokemon.id", toString pkmn_id)]]
    successes := if caught then [[("pokemon.id", toString pkmn_id)]] else []
    failures := if caught then [] else [[("pokemon.id", toString pkmn_id)]] }

/-! ## Theorems -/

/-- C1: for every execution of a Work Unit (one poller loop iteration in
app, or one call of the catch handler in app2), the attempt counter is
incremented exactly once and exactly one of the success counter or the
error/failure counter is incremented exactly once — never both and never
neither — regardless of whether the outcome is success, a non-200 status, or
a caught exception. -/
theorem C1_attempt_and_single_outcome (interval seed : Nat) (net : NetCall)
    (pid : Nat) (draw : Bool) :
    ((loopIter interval seed net).1.attempts.length = 1 ∧
      (((loopIter interval seed net).1.successes.length = 1 ∧
          (loopIter interval seed net).1.errors.length = 0) ∨
        ((loopIter interval seed net).1.successes.length = 0 ∧
          (loopIter interval seed net).1.errors.length = 1))) ∧
    ((catchHandler pid draw).attempts.length = 1 ∧
      (((catchHandler pid draw).successes.length = 1 ∧
          (catchHandler pid draw).failures.length = 0) ∨
        ((catchHandler pid draw).successes.length = 0 ∧
          (catchHandler pid draw).failures.length = 1))) := by
  constructor
  · cases net with
    | raise e => simp [loopIter, tryBlock, tryExcept, exceptBranch]
    | ret status body =>
        by_cases h : status = 200
        · cases body with
          | parsed nf => simp [loopIter, tryBlock, tryExcept, h]
          | raise e => simp [loopIter, tryBlock, tryExcept, exceptBranch, h]
        · simp [loopIter, tryBlock, tryExcept, h]
  · cases draw <;> simp [catchHandler]

/-- C5: for every integer path parameter, `GET /catch/<id>` returns status
200 with JSON body `{"pokemon_id": id, "caught": b}` where `b` is the
boolean draw; the returned `pokemon_id` equals the path parameter, and the
handler is a total function (no error path). -/
theorem C5_catch_response (pkmn_id : Nat) (draw : Bool) :
    (catchHandler pkmn_id draw).status = 200 ∧
    (catchHandler pkmn_id draw).bodyPokemonId = pkmn_id ∧
    (catchHandler pkmn_id draw).bodyCaught = draw := by
  simp [catchHandler]

/-- C6: whatever the Work Unit's outcome — success, application-level
failure, or caught exception — the iteration sleeps the full configured
interval (the sleep is in the `finally` block) and completes without an
exception propagating, so the next iteration begins only after the pacing
delay. -/
theorem C6_sleep_unconditional (interval seed : Nat) (net : NetCall) :
    (loopIter interval seed net).1.sleptSec = some interval ∧
    (loopIter interval seed net).2 = none := by
  constructor
  · simp [loopIter]
  · cases net with
    | raise e => simp [loopIter, tryBlock, tryExcept]
    | ret status body =>
        by_cases h : status = 200
        · cases body with
          | parsed nf => simp [loopIter, tryBlock, tryExcept, h]
          | raise e => simp [loopIter, tryBlock, tryExcept, h]
        · simp [loopIter, tryBlock, tryExcept, h]

/-- C9: the span opened at the start of a poller Work Unit execution is
closed on every exit path — normal completion, application-level failure, or
caught exception — so no span is left open across iterations. -/
theorem C9_span_closed (interval seed : Nat) (net : NetCall) :
    (loopIter interval seed net).1.spanClosed = true := by
  simp [loopIter]

/-- C3 counterexample: at a 404 response the span's `error.message`
attribute is `"HTTP 404"`, but the span is marked ERROR with the message
`"PokeAPI request failed with status 404"` (line 131), not with `"HTTP 404"`
as the claim states. -/
theorem C3_counterexample :
    ("error.message", AttrVal.str "HTTP 404") ∈
        (loopIter 30 0 (NetCall.ret 404 (JsonResult.parsed none))).1.spanAttrs ∧
    (loopIter 30 0 (NetCall.ret 404 (JsonResult.parsed none))).1.spanStatus =
        some (SpanStatus.error "PokeAPI request failed with status 404") ∧
    (loopIter 30 0 (NetCall.ret 404 (JsonResult.parsed none))).1.spanStatus ≠
        some (SpanStatus.error "HTTP 404") := by
  decide

/-- C3 (amended): on a non-200 status the span receives an `error.message`
attribute equal to `"HTTP <status>"`, the span is marked ERROR with the
message `"PokeAPI request failed with status <status>"`, the error counter
is incremented once with the attempted id and the status code as labels, and
nothing is raised by this branch. -/
theorem C3_non200_branch (interval seed status : Nat) (body : JsonResult)
    (h : status ≠ 200) :
    (loopIter interval seed (NetCall.ret status body)).1.spanAttrs =
      [("pokemon.id.attempted", AttrVal.int (randint 1 300 seed)),
       ("http.status_code", AttrVal.int status),
       ("error.message", AttrVal.str ("HTTP " ++ toString status))] ∧
    (loopIter interval seed (NetCall.ret status body)).1.spanStatus =
      some (SpanStatus.error
        ("PokeAPI request failed with status " ++ toString status)) ∧
    (loopIter interval seed (NetCall.ret status body)).1.errors =
      [[("pokemon.id", toString (randint 1 300 seed)),
        ("http.status_code", toString status)]] ∧
    (loopIter interval seed (NetCall.ret status body)).2 = none := by
  simp [loopIter, tryBlock, tryExcept, h]

/-- Witness for `C3_non200_branch` at status 404. -/
theorem C3_non200_branch_witness :
    (404 : Nat) ≠ 200 ∧
    ((loopIter 30 0 (NetCall.ret 404 (JsonResult.parsed none))).1.spanAttrs =
      [("pokemon.id.attempted", AttrVal.int (randint 1 300 0)),
       ("http.status_code", AttrVal.int 404),
       ("error.message", AttrVal.str ("HTTP " ++ toString 404))] ∧
    (loopIter 30 0 (NetCall.ret 404 (JsonResult.parsed none))).1.spanStatus =
      some (SpanStatus.error
        ("PokeAPI request failed with status " ++ toString 404)) ∧
    (loopIter 30 0 (NetCall.ret 404 (JsonResult.parsed none))).1.errors =
      [[("pokemon.id", toString (randint 1 300 0)),
        ("http.status_code", toString 404)]] ∧
    (loopIter 30 0 (NetCall.ret 404 (JsonResult.parsed none))).2 = none) :=
  ⟨by decide, C3_non200_branch 30 0 404 (JsonResult.parsed none) (by decide)⟩

/-- C4 counterexample: on a caught network exception with message `"boom"`
the span is marked ERROR with the message `"Exception: boom"` (line 143's
`f"Exception: {str(e)}"`), not with the exception message `"boom"` as the
claim states. -/
theorem C4_counterexample :
    (loopIter 30 7 (NetCall.raise ⟨"ConnectionError", "boom"⟩)).1.recordedExns =
        [⟨"ConnectionError", "boom"⟩] ∧
    (loopIter 30 7 (NetCall.raise ⟨"ConnectionError", "boom"⟩)).1.spanStatus =
        some (SpanStatus.error "Exception: boom") ∧
    (loopIter 30 7 (NetCall.raise ⟨"ConnectionError", "boom"⟩)).1.spanStatus ≠
        some (SpanStatus.error "boom") := by
  decide

/-- C4 (amended): every exception raised inside the `try` block of a poller
Work Unit (network failure, timeout, parse failure) is recorded on the span,
the span is marked ERROR with the message `"Exception: <exception message>"`,
the error counter is incremented with the id and the exception's type name as
labels, and no exception propagates out of the iteration, so the supervisor
loop is never terminated by it. -/
theorem C4_exception_contained (interval seed : Nat) (net : NetCall)
    (e : PyExn) (h : (tryBlock (randint 1 300 seed) net).2 = some e) :
    (loopIter interval seed net).1.recordedExns = [e] ∧
    (loopIter interval seed net).1.spanStatus =
      some (SpanStatus.error ("Exception: " ++ e.msg)) ∧
    (loopIter interval seed net).1.errors =
      [[("pokemon.id", toString (randint 1 300 seed)),
        ("exception.type", e.ty)]] ∧
    (loopIter interval seed net).2 = none := by
  cases net with
  | raise e' =>
      simp only [tryBlock, Option.some.injEq] at h
      subst h
      simp [loopIter, tryBlock, tryExcept, exceptBranch, exceptLabels]
  | ret status body =>
      by_cases hs : status = 200
      · cases body with
        | parsed nf => simp [tryBlock, hs] at h
        | raise e' =>
            simp only [tryBlock, hs, if_true, Option.some.injEq] at h
            subst h
            simp [loopIter, tryBlock, tryExcept, exceptBranch, exceptLabels, hs]
      · simp [tryBlock, hs] at h

/-- Witness for `C4_exception_contained`: a network timeout. -/
theorem C4_exception_contained_witness :
    (tryBlock (randint 1 300 5) (NetCall.raise ⟨"Timeout", "timed out"⟩)).2 =
        some ⟨"Timeout", "timed out"⟩ ∧
    ((loopIter 30 5 (NetCall.raise ⟨"Timeout", "timed out"⟩)).1.recordedExns =
        [⟨"Timeout", "timed out"⟩] ∧
      (loopIter 30 5 (NetCall.raise ⟨"Timeout", "timed out"⟩)).1.spanStatus =
        some (SpanStatus.error ("Exception: " ++ "timed out")) ∧
      (loopIter 30 5 (NetCall.raise ⟨"Timeout", "timed out"⟩)).1.errors =
        [[("pokemon.id", toString (randint 1 300 5)),
          ("exception.type", "Timeout")]] ∧
      (loopIter 30 5 (NetCall.raise ⟨"Timeout", "timed out"⟩)).2 = none) :=
  ⟨by decide,
   C4_exception_contained 30 5 (NetCall.raise ⟨"Timeout", "timed out"⟩)
     ⟨"Timeout", "timed out"⟩ (by decide)⟩

/-- C8: on a 200 response whose body parses, the name is read with default
`"unknown"` when the field is absent, name and status are attached to the
span, the span is marked OK, and the success counter is incremented once
with the id and that name as labels. -/
theorem C8_success_branch (interval seed : Nat) (nameField : Option String) :
    (loopIter interval seed
        (NetCall.ret 200 (JsonResult.parsed nameField))).1.spanAttrs =
      [("pokemon.id.attempted", AttrVal.int (randint 1 300 seed)),
       ("http.status_code", AttrVal.int 200),
       ("pokemon.name", AttrVal.str (nameField.getD "unknown"))] ∧
    (loopIter interval seed
        (NetCall.ret 200 (JsonResult.parsed nameField))).1.spanStatus =
      some SpanStatus.ok ∧
    (loopIter interval seed
        (NetCall.ret 200 (JsonResult.parsed nameField))).1.successes =
      [[("pokemon.id", toString (randint 1 300 seed)),
        ("pokemon.name", nameField.getD "unknown")]] ∧
    (loopIter interval seed
        (NetCall.ret 200 (JsonResult.parsed nameField))).1.errors = [] := by
  simp [loopIter, tryBlock, tryExcept]

/-- C10: the selected identifier is in `[1, 300]`; that same identifier is
the value of the `pokemon.id.attempted` span attribute and of the fetched
URL, and its string form is a `pokemon.id` label of every counter increment
of the execution; before selection the variable holds the sentinel 0, and
the exception path's label set applied at the sentinel reports
`pokemon.id = "0"`. -/
theorem C10_id_consistency (interval seed : Nat) (net : NetCall) :
    1 ≤ randint 1 300 seed ∧ randint 1 300 seed ≤ 300 ∧
    ("pokemon.id.attempted", AttrVal.int (randint 1 300 seed)) ∈
        (loopIter interval seed net).1.spanAttrs ∧
    (loopIter interval seed net).1.url =
        "https://pokeapi.co/api/v2/pokemon/" ++ toString (randint 1 300 seed) ∧
    (((loopIter interval seed net).1.attempts ++
        (loopIter interval seed net).1.successes ++
        (loopIter interval seed net).1.errors).all
      (fun l => l.contains ("pokemon.id", toString (randint 1 300 seed)))) =
        true ∧
    pokemonIdInit = 0 ∧
    (∀ e : PyExn,
      exceptLabels pokemonIdInit e =
        [("pokemon.id", "0"), ("exception.type", e.ty)]) := by
  have hmod : seed % 300 < 300 := Nat.mod_lt _ (by norm_num)
  refine ⟨?_, ?_, ?_, ?_, ?_, rfl, fun e => rfl⟩
  · exact Nat.le_add_right 1 _
  · simp only [randint]
    omega
  · cases net with
    | raise e => simp [loopIter, tryBlock, tryExcept, exceptBranch]
    | ret status body =>
        by_cases h : status = 200
        · cases body with
          | parsed nf => simp [loopIter, tryBlock, tryExcept, h]
          | raise e => simp [loopIter, tryBlock, tryExcept, exceptBranch, h]
        · simp [loopIter, tryBlock, tryExcept, h]
  · cases net with
    | raise e => simp [loopIter, tryBlock, tryExcept, exceptBranch, pokeUrl]
    | ret status body =>
        by_cases h : status = 200
        · cases body with
          | parsed nf => simp [loopIter, tryBlock, tryExcept, pokeUrl, h]
          | raise e =>
              simp [loopIter, tryBlock, tryExcept, exceptBranch, pokeUrl, h]
        · simp [loopIter, tryBlock, tryExcept, pokeUrl, h]
  · cases net with
    | raise e =>
        simp [loopIter, tryBlock, tryExcept, exceptBranch, exceptLabels]
    | ret status body =>
        by_cases h : status = 200
        · cases body with
          | parsed nf => simp [loopIter, tryBlock, tryExcept, h]
          | raise e =>
              simp [loopIter, tryBlock, tryExcept, exceptBranch, exceptLabels,
                h]
        · simp [loopIter, tryBlock, tryExcept, h]

/-- Lookup after a dict update: the new value at the written key, the old
value elsewhere. -/
theorem dictGet_dictSet (m : AttrMap) (k v k' : String) :
    dictGet (dictSet m k v) k' = if k' = k then some v else dictGet m k' := by
  induction m with
  | nil =>
      by_cases h : k' = k
      · simp [dictSet, dictGet, h]
      · have h2 : ¬k = k' := fun hh => h hh.symm
        simp [dictSet, dictGet, h, h2]
  | cons hd tl ih =>
      obtain ⟨a, b⟩ := hd
      by_cases hak : a = k <;> by_cases hk' : a = k' <;>
        simp_all [dictSet, dictGet, eq_comm]

/-- The parse loop with its surrounding `try`/`except` applies exactly the
longest well-formed prefix of the pair list, and the `except` branch runs
exactly when some pair is malformed. -/
theorem applyOverridePairs_eq (ps : List String) (m : AttrMap) :
    applyOverridePairs ps m =
      ((ps.takeWhile wellFormed).foldl overrideStep m,
        ps.any (fun p => !wellFormed p)) := by
  induction ps generalizing m with
  | nil => simp [applyOverridePairs]
  | cons p ps ih =>
      cases hp : splitFirstEq p with
      | some kv =>
          have hw : wellFormed p = true := by simp [wellFormed, hp]
          simp [applyOverridePairs, hp, hw, overrideStep, ih,
            List.takeWhile_cons, List.any_cons]
      | none =>
          have hw : wellFormed p = false := by simp [wellFormed, hp]
          simp [applyOverridePairs, hp, hw, List.takeWhile_cons, List.any_cons]

/-- Folding the loop-body step over well-formed pairs realises the spec's
merged lookup: last matching pair wins, defaults as fallback. -/
theorem foldl_overrideStep_lookup (ps : List String) (m : AttrMap) (k : String)
    (h : ∀ p ∈ ps, wellFormed p = true) :
    dictGet (ps.foldl overrideStep m) k = specMergeLookup m ps k := by
  induction ps generalizing m with
  | nil => simp [specMergeLookup, specOverrideLookup]
  | cons p ps ih =>
      have hp : wellFormed p = true := h p (List.mem_cons_self p ps)
      obtain ⟨kv, hkv⟩ : ∃ kv, splitFirstEq p = some kv := by
        cases hsp : splitFirstEq p with
        | none => simp [wellFormed, hsp] at hp
        | some kv => exact ⟨kv, rfl⟩
      rw [List.foldl_cons, ih _ (fun q hq => h q (List.mem_cons_of_mem _ hq))]
      simp only [specMergeLookup, specOverrideLookup, overrideStep, hkv]
      cases hso : specOverrideLookup ps k with
      | some v => simp
      | none =>
          simp only [dictGet_dictSet]
          by_cases hk : pyStrip kv.1 = k
          · simp [hk]
          · have h2 : ¬k = pyStrip kv.1 := fun hh => hk hh.symm
            simp [hk, h2]

/-- C2 counterexample: in `"a=1,b,c=2"` the pair `"c=2"` is well formed and
comes after the malformed pair `"b"`, yet it does not end up in the returned
attribute map — the `except` around the whole loop aborts the remaining
pairs, contrary to the claim that resolution continues. -/
theorem C2_counterexample :
    wellFormed "c=2" = true ∧
    dictGet (resolveResourceAttributes
        [("service.name", "svc")] "a=1,b,c=2") "c" = none ∧
    dictGet (resolveResourceAttributes
        [("service.name", "svc")] "a=1,b,c=2") "a" = some "1" := by
  decide

/-- C2 (amended): a malformed pair causes that pair and every later pair to
be skipped, with one logged warning for the whole parse; every well-formed
pair before the first malformed one is applied, and parsing never raises
(the `ValueError` is caught).  Resolution equals the fold of the loop-body
step over the longest well-formed prefix, and the warning fires exactly when
some pair is malformed. -/
theorem C2_malformed_aborts_rest (defaults : AttrMap) (env : String) :
    resolveResourceAttributes defaults env =
      ((pySplitComma env).takeWhile wellFormed).foldl overrideStep defaults ∧
    (applyOverridePairs (pySplitComma env) defaults).2 =
      (pySplitComma env).any (fun p => !wellFormed p) := by
  constructor
  · unfold resolveResourceAttributes
    by_cases h : env = ""
    · subst h
      have htw : (pySplitComma "").takeWhile wellFormed = [] := by decide
      simp [htw]
    · simp [h, applyOverridePairs_eq]
  · simp [applyOverridePairs_eq]

/-- C7: on an override string whose pairs all contain `=`, resolution splits
each pair on the first `=` only, trims key and value, and the result is the
defaults merged with the overrides — an override wins on key collision and a
later pair overwrites an earlier one for the same key. -/
theorem C7_merge_semantics (defaults : AttrMap) (env k : String)
    (h : ∀ p ∈ pySplitComma env, wellFormed p = true) :
    dictGet (resolveResourceAttributes defaults env) k =
      specMergeLookup defaults (pySplitComma env) k := by
  unfold resolveResourceAttributes
  by_cases he : env = ""
  · exfalso
    subst he
    have hmem : "" ∈ pySplitComma "" := by decide
    have hwf := h _ hmem
    simp [wellFormed, splitFirstEq, splitFirstChar] at hwf
  · simp only [he, if_false]
    rw [applyOverridePairs_eq]
    have htw : (pySplitComma env).takeWhile wellFormed = pySplitComma env :=
      List.takeWhile_eq_self_iff.mpr h
    rw [htw]
    exact foldl_overrideStep_lookup _ _ _ h

/-- Witness for `C7_merge_semantics`, at the spec's own example
`"team= rockets ,  x=1"`: the `team` entry resolves to `"rockets"`. -/
theorem C7_merge_semantics_witness :
    (∀ p ∈ pySplitComma "team= rockets ,  x=1", wellFormed p = true) ∧
    dictGet (resolveResourceAttributes
        [("service.name", "pokemon-pinger-default"),
         ("deployment.environment", "unknown")] "team= rockets ,  x=1") "team" =
      specMergeLookup
        [("service.name", "pokemon-pinger-default"),
         ("deployment.environment", "unknown")]
        (pySplitComma "team= rockets ,  x=1") "team" ∧
    dictGet (resolveResourceAttributes
        [("service.name", "pokemon-pinger-default"),
         ("deployment.environment", "unknown")] "team= rockets ,  x=1") "team" =
      some "rockets" :=
  ⟨by decide,
   C7_merge_semantics
     [("service.name", "pokemon-pinger-default"),
      ("deployment.environment", "unknown")] "team= rockets ,  x=1" "team"
     (by decide),
   by decide⟩

end ECSOTel
